import Mathlib

/-!
Shallow embedding of the resilience core of the WhatsApp gateway
(source file `src/index.js`): the reconnection controller with
exponential backoff, the per-counterparty retry queue for inbound
messages that failed decryption, the outbound send operation, and the
bounded rejected-message debug log.

Wall-clock time is passed explicitly as a `Nat` of milliseconds.  The
single `setTimeout` handle stored in the mutable `reconnectTimeout`
variable is embedded as a list of the delays of the live reconnection
timers, so that the at-most-one-timer property is a theorem rather
than a consequence of the state's type.
-/

namespace WhatsappGateway

/-- Constant MAX_RECONNECT_ATTEMPTS of src/index.js line 77. -/
def MAX_RECONNECT_ATTEMPTS : Nat := 10

/-- Constant INITIAL_RECONNECT_DELAY of src/index.js line 78 (1 second). -/
def INITIAL_RECONNECT_DELAY : Nat := 1000

/-- Constant MAX_RECONNECT_DELAY of src/index.js line 79 (60 seconds). -/
def MAX_RECONNECT_DELAY : Nat := 60000

/-- Constant MAX_WAIT_TIME of src/index.js line 80 (10 seconds, the
retry-queue expiry threshold). -/
def MAX_WAIT_TIME : Nat := 10000

/-- The mutable connection-level state of src/index.js: the counter
`reconnectAttempts`, the pending reconnection timers (the delays of the
timers created by `setTimeout` in `scheduleReconnect` and not yet fired
or cancelled; the source keeps at most one handle in the variable
`reconnectTimeout`), whether the persisted credentials directory is
present (the source never deletes it), and the `isReady` flag. -/
structure GatewayState where
  attempts : Nat
  pending : List Nat
  credsPresent : Bool
  isReady : Bool
deriving DecidableEq

/-- Function scheduleReconnect of src/index.js lines 594-635: cancel the
previously pending timer, give up when the attempt counter has reached
MAX_RECONNECT_ATTEMPTS, otherwise start a timer whose delay is
min(INITIAL_RECONNECT_DELAY * 2 ^ attempts, MAX_RECONNECT_DELAY) and
increment the counter. -/
def scheduleReconnect (s : GatewayState) : GatewayState :=
  let s1 : GatewayState := { s with pending := [] }
  if MAX_RECONNECT_ATTEMPTS ≤ s1.attempts then
    s1
  else
    let delay := min (INITIAL_RECONNECT_DELAY * 2 ^ s1.attempts) MAX_RECONNECT_DELAY
    { s1 with attempts := s1.attempts + 1, pending := [delay] }

/-- Function resetReconnectAttempts of src/index.js lines 637-643: zero
the counter and cancel any pending timer. -/
def resetReconnectAttempts (s : GatewayState) : GatewayState :=
  { s with attempts := 0, pending := [] }

/-- The `connection === "close"` branch of the connection.update handler,
src/index.js lines 698-759.  The switch dispatches on the Baileys status
code: 401 loggedOut (no reconnection), 515 restartRequired (reconnects;
in the source `scheduleReconnect` is invoked after an extra flat 5 s
pause), 500 badSession, 408 timedOut and connectionLost, 428
connectionClosed, and a default branch that also reconnects.  The
`case DisconnectReason.replaced:` label resolves to `undefined` in the
Baileys enum, so it matches exactly a missing status code, embedded here
as `none`: that branch does not reconnect. -/
def handleClose (statusCode : Option Nat) (s : GatewayState) : GatewayState :=
  let s1 : GatewayState := { s with isReady := false }
  match statusCode with
  | none => s1
  | some c =>
    if c = 401 then s1
    else if c = 515 then scheduleReconnect s1
    else if c = 500 then scheduleReconnect s1
    else if c = 408 then scheduleReconnect s1
    else if c = 428 then scheduleReconnect s1
    else scheduleReconnect s1

/-- The `connection === "open"` branch of the connection.update handler,
src/index.js lines 692-697: mark ready and reset the reconnection
counter, cancelling any pending timer. -/
def handleOpen (s : GatewayState) : GatewayState :=
  { resetReconnectAttempts s with isReady := true }

/-- The body of the timer created in `scheduleReconnect` (src/index.js
lines 631-634): the fired timer clears `reconnectTimeout` and calls
`connectToWhatsApp`, whose effects arrive as later connection events. -/
def reconnectTimerFire (s : GatewayState) : GatewayState :=
  { s with pending := [] }

/-- The connection lifecycle events that mutate the reconnection state. -/
inductive GatewayEvent where
  | close (statusCode : Option Nat)
  | connOpen
  | timerFire
deriving DecidableEq

/-- Dispatch of one lifecycle event to its handler in src/index.js. -/
def applyEvent (s : GatewayState) (e : GatewayEvent) : GatewayState :=
  match e with
  | .close c => handleClose c s
  | .connOpen => handleOpen s
  | .timerFire => reconnectTimerFire s

/-- The state at process start: counter 0, no timer, credentials on disk
(the auth_info directory), not ready. -/
def initState : GatewayState :=
  { attempts := 0, pending := [], credsPresent := true, isReady := false }

/-- A Baileys message key as used by the retry queue: the id together
with the fromMe origin flag is the de-duplication identity. -/
structure MessageKey where
  id : String
  fromMe : Bool
deriving DecidableEq

/-- One entry of the retry queue (the object literal pushed in
addToRetryQueue, src/index.js lines 408-414). -/
structure RetryItem where
  messageKey : MessageKey
  remoteJid : String
  timestamp : Nat
  retries : Nat
  lastRetry : Option Nat
deriving DecidableEq

/-- The messageRetryQueue Map of src/index.js line 65: counterparty JIDs
to ordered lists of retry items, in key-insertion order. -/
abbrev RetryQueue := List (String × List RetryItem)

/-- Map.get: the value stored at the first entry with the given key. -/
def qGet (q : RetryQueue) (jid : String) : Option (List RetryItem) :=
  match q with
  | [] => none
  | p :: rest => if p.1 = jid then some p.2 else qGet rest jid

/-- Map.has. -/
def qHas (q : RetryQueue) (jid : String) : Bool :=
  (qGet q jid).isSome

/-- Map.set: replace the value at an existing key in place, or append a
new entry at the end (JavaScript Map key-insertion order). -/
def qSet (q : RetryQueue) (jid : String) (l : List RetryItem) : RetryQueue :=
  match q with
  | [] => [(jid, l)]
  | p :: rest => if p.1 = jid then (jid, l) :: rest else p :: qSet rest jid l

/-- Map.delete. -/
def qDelete (q : RetryQueue) (jid : String) : RetryQueue :=
  match q with
  | [] => []
  | p :: rest => if p.1 = jid then rest else p :: qDelete rest jid

/-- The duplicate test of addToRetryQueue and removeFromRetryQueue
(src/index.js lines 401-405 and 430-434): same id and same fromMe. -/
def sameIdentity (a b : MessageKey) : Bool :=
  a.id == b.id && a.fromMe == b.fromMe

/-- The fresh item pushed by addToRetryQueue (src/index.js lines
408-414). -/
def mkRetryItem (remoteJid : String) (messageKey : MessageKey) (now : Nat) : RetryItem :=
  { messageKey := messageKey, remoteJid := remoteJid, timestamp := now,
    retries := 0, lastRetry := none }

/-- Function addToRetryQueue of src/index.js lines 393-421: create the
key with an empty list when absent, then push the item unless one with
the same (id, fromMe) identity is already queued. -/
def addToRetryQueue (q : RetryQueue) (remoteJid : String) (messageKey : MessageKey)
    (now : Nat) : RetryQueue :=
  let q1 := if qHas q remoteJid then q else qSet q remoteJid []
  let queue := (qGet q1 remoteJid).getD []
  if queue.any (fun item => sameIdentity item.messageKey messageKey) then q1
  else qSet q1 remoteJid (queue ++ [mkRetryItem remoteJid messageKey now])

/-- The splice of removeFromRetryQueue (src/index.js lines 430-437):
erase the first item matching the identity, or leave the list alone
when none matches. -/
def spliceMatching (queue : List RetryItem) (messageKey : MessageKey) :
    List RetryItem :=
  match queue.findIdx? (fun item => sameIdentity item.messageKey messageKey) with
  | some i => queue.eraseIdx i
  | none => queue

/-- Function removeFromRetryQueue of src/index.js lines 426-453: splice
out the first matching item, then drop the key when its list became
empty. -/
def removeFromRetryQueue (q : RetryQueue) (remoteJid : String)
    (messageKey : MessageKey) : RetryQueue :=
  match qGet q remoteJid with
  | none => q
  | some queue =>
    if (spliceMatching queue messageKey).length = 0 then qDelete q remoteJid
    else qSet q remoteJid (spliceMatching queue messageKey)

/-- The keep test of cleanupExpiredMessages (src/index.js lines 465-480):
an item survives unless its age now - timestamp strictly exceeds
MAX_WAIT_TIME. -/
def keepMessage (now : Nat) (item : RetryItem) : Bool :=
  !(decide (MAX_WAIT_TIME < now - item.timestamp))

/-- Function cleanupExpiredMessages of src/index.js lines 458-491: for
every entry filter out the expired items, and delete the key when the
filtered list is empty. -/
def cleanupExpiredMessages (now : Nat) (q : RetryQueue) : RetryQueue :=
  (q.map (fun p => (p.1, p.2.filter (keepMessage now)))).filter
    (fun p => !p.2.isEmpty)

/-- The local rate-limit test of retryQueuedMessages (src/index.js lines
526-529): a last retry stamped less than 1000 ms before now skips the
item; a null lastRetry never does. -/
def recentRetry (now : Nat) (item : RetryItem) : Bool :=
  match item.lastRetry with
  | some t => decide (now - t < 1000)
  | none => false

/-- One iteration of the drain loop of retryQueuedMessages (src/index.js
lines 508-557) on a single item, together with whether a reprocessing
attempt was made: an item with retries at 3 or more is dropped without
an attempt, a recently retried item is kept untouched, otherwise the
retry counter is incremented and the last-retry time stamped before the
attempt. -/
def drainStepA (now : Nat) (item : RetryItem) : Option RetryItem × Bool :=
  if 3 ≤ item.retries then (none, false)
  else if recentRetry now item then (some item, false)
  else (some { item with retries := item.retries + 1, lastRetry := some now }, true)

/-- The state effect of one drain iteration, without the attempt flag. -/
def drainStep (now : Nat) (item : RetryItem) : Option RetryItem :=
  (drainStepA now item).1

/-- Function retryQueuedMessages of src/index.js lines 496-565: walk the
counterparty's list (the backwards loop with splice visits every item
exactly once and keeps the relative order, so it is the filterMap of the
per-item step), then delete the key when the list became empty. -/
def retryQueuedMessages (now : Nat) (q : RetryQueue) (remoteJid : String) : RetryQueue :=
  match qGet q remoteJid with
  | none => q
  | some queue =>
    if queue.isEmpty then q
    else
      let queue1 := queue.filterMap (drainStep now)
      if queue1.length = 0 then qDelete q remoteJid
      else qSet q remoteJid queue1

/-- Well-formedness of the retry queue: no counterparty key maps to an
empty list (the invariant the source maintains by deleting a key as soon
as its list becomes empty). -/
def wfQueue (q : RetryQueue) : Prop :=
  ∀ p ∈ q, p.2 ≠ ([] : List RetryItem)

/-- The number of reprocessing attempts the drain loop makes on one item
across a sequence of drain invocations at the given times, following the
item through its mutations until it is dropped. -/
def drainAttempts : List Nat → RetryItem → Nat
  | [], _ => 0
  | t :: ts, item =>
    match drainStepA t item with
    | (none, _) => 0
    | (some item1, attempted) =>
      (if attempted then 1 else 0) + drainAttempts ts item1

/-- Function sanitizeNumber of src/index.js lines 82-85: strip every
non-digit character. -/
def sanitizeNumber (numero : String) : String :=
  String.mk (numero.data.filter Char.isDigit)

/-- Function buildJidFromNumber of src/index.js lines 87-93: null when no
digit survives, otherwise the digits suffixed with the server name. -/
def buildJidFromNumber (numero : String) : Option String :=
  let digits := sanitizeNumber numero
  if digits = "" then none
  else some (digits ++ "@s.whatsapp.net")

/-- The classified errors sendMessage can throw, plus the pass-through of
an error thrown by the transport call sock.sendMessage. -/
inductive SendError where
  | notReady
  | invalidNumber
  | transport (code : Nat)
deriving DecidableEq

/-- The connection facts sendMessage reads: whether the sock object is
non-null and the isReady flag. -/
structure SendState where
  sockPresent : Bool
  isReady : Bool
deriving DecidableEq

/-- What one call of sendMessage did: how many transport attempts it
performed and its result. -/
structure SendOutcome where
  attempts : Nat
  result : Except SendError Unit

/-- Function sendMessage of src/index.js lines 1179-1192: fail before any
transport call when the sock is null or not ready, or when the number
holds no digit; otherwise perform exactly one transport attempt whose
outcome is the parameter. -/
def sendMessage (st : SendState) (numero : String)
    (transport : Except Nat Unit) : SendOutcome :=
  if !st.sockPresent || !st.isReady then
    { attempts := 0, result := .error .notReady }
  else
    match buildJidFromNumber numero with
    | none => { attempts := 0, result := .error .invalidNumber }
    | some _ =>
      match transport with
      | .ok _ => { attempts := 1, result := .ok () }
      | .error c => { attempts := 1, result := .error (.transport c) }

/-- Constant MAX_REJECTED_TRACK of src/index.js line 72. -/
def MAX_REJECTED_TRACK : Nat := 100

/-- One entry of the rejectedMessages debug log (the object literals
unshifted at src/index.js lines 899-905, 977-984 and 1158-1167). -/
structure RejectedEntry where
  timestamp : Nat
  remoteJid : String
  reason : String
deriving DecidableEq

/-- One insertion into rejectedMessages: unshift the entry at the front,
then pop the last entry when the length exceeds MAX_REJECTED_TRACK
(src/index.js lines 899-908, 977-987, 1158-1170). -/
def trackRejected (log : List RejectedEntry) (e : RejectedEntry) : List RejectedEntry :=
  let log1 := e :: log
  if MAX_REJECTED_TRACK < log1.length then log1.dropLast else log1

/-- The messages field of GET /debug/rejected-messages (src/index.js
lines 1379-1385): the first 50 entries of the log. -/
def debugRejectedMessages (log : List RejectedEntry) : List RejectedEntry :=
  log.take 50

/-! ## Reconnection controller -/

/-- Every status code other than 401 (and other than a missing one) goes
through scheduleReconnect: the switch branches for 515, 500, 408, 428
and the default all call it. -/
theorem handleClose_of_ne (c : Nat) (s : GatewayState) (hc : c ≠ 401) :
    handleClose (some c) s = scheduleReconnect { s with isReady := false } := by
  simp only [handleClose]
  rw [if_neg hc]
  split_ifs <;> rfl

/-- The pending timer scheduleReconnect leaves behind. -/
theorem scheduleReconnect_pending (s : GatewayState) :
    (scheduleReconnect s).pending =
      if s.attempts < MAX_RECONNECT_ATTEMPTS then
        [min (INITIAL_RECONNECT_DELAY * 2 ^ s.attempts) MAX_RECONNECT_DELAY]
      else [] := by
  simp only [scheduleReconnect]
  rcases Nat.lt_or_ge s.attempts MAX_RECONNECT_ATTEMPTS with h | h
  · rw [if_neg (Nat.not_le.mpr h), if_pos h]
  · rw [if_pos h, if_neg (Nat.not_lt.mpr h)]

/-- The attempt counter scheduleReconnect leaves behind. -/
theorem scheduleReconnect_attempts (s : GatewayState) :
    (scheduleReconnect s).attempts =
      if s.attempts < MAX_RECONNECT_ATTEMPTS then s.attempts + 1
      else s.attempts := by
  simp only [scheduleReconnect]
  rcases Nat.lt_or_ge s.attempts MAX_RECONNECT_ATTEMPTS with h | h
  · rw [if_neg (Nat.not_le.mpr h), if_pos h]
  · rw [if_pos h, if_neg (Nat.not_lt.mpr h)]

/-- C1: for every disconnect whose cause is classified as a
non-authentication, non-replaced failure (timeout 408, connection
closed 428 / lost 408, restart-required 515, bad session 500, unknown),
the handler schedules a retry with delay min(1000 * 2^attempts, 60000)
ms while the attempt counter is below the maximum; the delay is 1000 ms
on attempt 1, 2000 ms on attempt 2, reaches the 60000 ms cap by attempt
7, is monotonically non-decreasing across consecutive failures, and
once the counter has reached 10 nothing further is scheduled. -/
theorem c1_exponential_backoff_schedule (c : Nat) (s : GatewayState)
    (hc : c ≠ 401) :
    ((handleClose (some c) s).pending =
      if s.attempts < MAX_RECONNECT_ATTEMPTS then
        [min (INITIAL_RECONNECT_DELAY * 2 ^ s.attempts) MAX_RECONNECT_DELAY]
      else []) ∧
    (s.attempts = 0 → (handleClose (some c) s).pending = [1000]) ∧
    (s.attempts = 1 → (handleClose (some c) s).pending = [2000]) ∧
    (s.attempts = 6 → (handleClose (some c) s).pending = [60000]) ∧
    min (INITIAL_RECONNECT_DELAY * 2 ^ s.attempts) MAX_RECONNECT_DELAY ≤
      min (INITIAL_RECONNECT_DELAY * 2 ^ (s.attempts + 1)) MAX_RECONNECT_DELAY ∧
    (MAX_RECONNECT_ATTEMPTS ≤ s.attempts →
      (handleClose (some c) s).pending = [] ∧
      (handleClose (some c) s).attempts = s.attempts) := by
  rw [handleClose_of_ne c s hc]
  refine ⟨?_, ?_, ?_, ?_, ?_, ?_⟩
  · rw [scheduleReconnect_pending]
  · intro h0
    rw [scheduleReconnect_pending]
    simp [h0, MAX_RECONNECT_ATTEMPTS, INITIAL_RECONNECT_DELAY, MAX_RECONNECT_DELAY]
  · intro h1
    rw [scheduleReconnect_pending]
    simp [h1, MAX_RECONNECT_ATTEMPTS, INITIAL_RECONNECT_DELAY, MAX_RECONNECT_DELAY]
  · intro h6
    rw [scheduleReconnect_pending]
    simp [h6, MAX_RECONNECT_ATTEMPTS, INITIAL_RECONNECT_DELAY, MAX_RECONNECT_DELAY]
  · have h2 : (2 : Nat) ^ s.attempts ≤ 2 ^ (s.attempts + 1) :=
      Nat.pow_le_pow_right (by norm_num) (Nat.le_succ _)
    exact min_le_min (Nat.mul_le_mul le_rfl h2) le_rfl
  · intro hmax
    constructor
    · rw [scheduleReconnect_pending]
      simp [Nat.not_lt.mpr hmax]
    · rw [scheduleReconnect_attempts]
      simp [Nat.not_lt.mpr hmax]

/-- Witness for C1: the first timeout disconnect from the initial state
schedules the reconnection 1000 ms out. -/
theorem c1_exponential_backoff_schedule_witness :
    (handleClose (some 408) initState).pending = [1000] :=
  (c1_exponential_backoff_schedule 408 initState (by decide)).2.1 rfl

/-- The timer list scheduleReconnect leaves behind never holds more than
one timer. -/
theorem scheduleReconnect_pending_le (s : GatewayState) :
    ((scheduleReconnect s).pending).length ≤ 1 := by
  rw [scheduleReconnect_pending]
  split <;> simp

/-- Every lifecycle event preserves the at-most-one-pending-timer bound. -/
theorem applyEvent_pending_le (s : GatewayState) (e : GatewayEvent)
    (h : s.pending.length ≤ 1) : ((applyEvent s e).pending).length ≤ 1 := by
  rcases e with c | _ | _
  · rcases c with _ | c
    · simpa [applyEvent, handleClose] using h
    · by_cases h4 : c = 401
      · subst h4
        simpa [applyEvent, handleClose] using h
      · simp only [applyEvent]
        rw [handleClose_of_ne c s h4]
        exact scheduleReconnect_pending_le _
  · simp [applyEvent, handleOpen, resetReconnectAttempts]
  · simp [applyEvent, reconnectTimerFire]

/-- The at-most-one-pending-timer bound holds along every event trace. -/
theorem foldl_pending_le (es : List GatewayEvent) (s : GatewayState)
    (h : s.pending.length ≤ 1) :
    ((es.foldl applyEvent s).pending).length ≤ 1 := by
  induction es generalizing s with
  | nil => simpa using h
  | cons e es ih => exact ih _ (applyEvent_pending_le s e h)

/-- C2: at most one reconnection timer is ever pending: in every state
reachable from the initial state through lifecycle events at most one
timer is live, scheduling always cancels and replaces the previously
pending timer, and a successful open cancels the pending timer. -/
theorem c2_at_most_one_reconnect_timer (es : List GatewayEvent)
    (s : GatewayState) :
    ((es.foldl applyEvent initState).pending).length ≤ 1 ∧
    ((scheduleReconnect s).pending).length ≤ 1 ∧
    (resetReconnectAttempts s).pending = [] ∧
    (handleOpen s).pending = [] :=
  ⟨foldl_pending_le es initState (by simp [initState]),
   scheduleReconnect_pending_le s, rfl, rfl⟩

/-- C3 counterexample: after a disconnect with status 401 (loggedOut)
from a state with four reconnection attempts recorded and credentials
on disk, the handler neither clears the credentials nor resets the
attempt counter to 0; it only refrains from reconnecting. -/
theorem c3_counterexample :
    ¬(((handleClose (some 401)
        { attempts := 4, pending := [], credsPresent := true,
          isReady := true }).credsPresent = false) ∧
      ((handleClose (some 401)
        { attempts := 4, pending := [], credsPresent := true,
          isReady := true }).attempts = 0)) := by
  decide

/-- C3 amended: on a disconnect classified loggedOut (status 401) the
handler schedules no automatic reconnection, but it leaves the
persisted credentials and the reconnection attempt counter unchanged
instead of clearing and resetting them; it only marks the connection
not ready. -/
theorem c3_logged_out_no_reconnect (s : GatewayState) :
    (handleClose (some 401) s).pending = s.pending ∧
    (handleClose (some 401) s).attempts = s.attempts ∧
    (handleClose (some 401) s).credsPresent = s.credsPresent ∧
    (handleClose (some 401) s).isReady = false := by
  simp [handleClose]

/-! ## Retry queue -/

/-- Reading back the key just set yields the value just stored. -/
theorem qGet_qSet_self (q : RetryQueue) (jid : String) (l : List RetryItem) :
    qGet (qSet q jid l) jid = some l := by
  induction q with
  | nil => simp [qSet, qGet]
  | cons p rest ih =>
    by_cases h : p.1 = jid
    · simp [qSet, qGet, h]
    · simp [qSet, qGet, h, ih]

/-- Setting the same key twice keeps only the second value. -/
theorem qSet_qSet_same (q : RetryQueue) (jid : String)
    (l1 l2 : List RetryItem) :
    qSet (qSet q jid l1) jid l2 = qSet q jid l2 := by
  induction q with
  | nil => simp [qSet]
  | cons p rest ih =>
    by_cases h : p.1 = jid
    · simp [qSet, h]
    · simp [qSet, h, ih]

/-- Every entry of a map after a set is the new entry or an old one. -/
theorem mem_qSet (q : RetryQueue) (jid : String) (l : List RetryItem)
    (p : String × List RetryItem) (hp : p ∈ qSet q jid l) :
    p = (jid, l) ∨ p ∈ q := by
  induction q with
  | nil => simpa [qSet] using hp
  | cons p0 rest ih =>
    by_cases h : p0.1 = jid
    · rcases (by simpa [qSet, h] using hp : p = (jid, l) ∨ p ∈ rest) with h1 | h1
      · exact Or.inl h1
      · exact Or.inr (List.mem_cons_of_mem _ h1)
    · rcases (by simpa [qSet, h] using hp : p = p0 ∨ p ∈ qSet rest jid l) with h1 | h1
      · exact Or.inr (h1 ▸ List.mem_cons_self _ _)
      · rcases ih h1 with h2 | h2
        · exact Or.inl h2
        · exact Or.inr (List.mem_cons_of_mem _ h2)

/-- Every entry surviving a delete was an entry before. -/
theorem mem_qDelete (q : RetryQueue) (jid : String)
    (p : String × List RetryItem) (hp : p ∈ qDelete q jid) : p ∈ q := by
  induction q with
  | nil => simp [qDelete] at hp
  | cons p0 rest ih =>
    by_cases h : p0.1 = jid
    · simp only [qDelete, if_pos h] at hp
      exact List.mem_cons_of_mem _ hp
    · rcases (by simpa [qDelete, h] using hp : p = p0 ∨ p ∈ qDelete rest jid) with h1 | h1
      · exact h1 ▸ List.mem_cons_self _ _
      · exact List.mem_cons_of_mem _ (ih h1)

/-- On an absent key, enqueue creates the key and stores the fresh item
as a singleton. -/
theorem addToRetryQueue_absent (q : RetryQueue) (jid : String)
    (k : MessageKey) (t : Nat) (hg : qGet q jid = none) :
    addToRetryQueue q jid k t = qSet q jid [mkRetryItem jid k t] := by
  unfold addToRetryQueue qHas
  simp [hg, qGet_qSet_self, qSet_qSet_same]

/-- On a present key, enqueue appends the fresh item unless the identity
is already queued. -/
theorem addToRetryQueue_present (q : RetryQueue) (jid : String)
    (k : MessageKey) (t : Nat) (queue : List RetryItem)
    (hg : qGet q jid = some queue) :
    addToRetryQueue q jid k t =
      if queue.any (fun item => sameIdentity item.messageKey k) then q
      else qSet q jid (queue ++ [mkRetryItem jid k t]) := by
  unfold addToRetryQueue qHas
  simp [hg]

/-- An item always matches its own identity. -/
theorem sameIdentity_self (k : MessageKey) : sameIdentity k k = true := by
  simp [sameIdentity]

/-- C4: enqueue is idempotent: enqueuing the same (counterparty, message
identity) pair twice yields the same queue as enqueuing it once, and
when the counterparty's list held at most one item of that identity it
holds exactly one item of that identity afterwards, so no duplicate is
ever inserted. -/
theorem c4_enqueue_idempotent (q : RetryQueue) (jid : String)
    (k : MessageKey) (t t1 : Nat)
    (h : ((qGet q jid).getD []).countP
      (fun item => sameIdentity item.messageKey k) ≤ 1) :
    addToRetryQueue (addToRetryQueue q jid k t) jid k t1 =
      addToRetryQueue q jid k t ∧
    ((qGet (addToRetryQueue q jid k t) jid).getD []).countP
      (fun item => sameIdentity item.messageKey k) = 1 := by
  rcases hg : qGet q jid with _ | queue
  · have h1 : addToRetryQueue q jid k t = qSet q jid [mkRetryItem jid k t] :=
      addToRetryQueue_absent q jid k t hg
    have h2 : qGet (addToRetryQueue q jid k t) jid = some [mkRetryItem jid k t] := by
      rw [h1]; exact qGet_qSet_self _ _ _
    constructor
    · rw [addToRetryQueue_present _ jid k t1 _ h2]
      simp [mkRetryItem, sameIdentity_self]
    · rw [h2]
      simp [mkRetryItem, sameIdentity_self]
  · by_cases hA : queue.any (fun item => sameIdentity item.messageKey k)
    · have h1 : addToRetryQueue q jid k t = q := by
        rw [addToRetryQueue_present q jid k t queue hg, if_pos hA]
      constructor
      · rw [h1, addToRetryQueue_present q jid k t1 queue hg, if_pos hA]
      · rw [h1, hg]
        rw [hg] at h
        simp only [Option.getD_some] at h ⊢
        have hpos : 0 < queue.countP (fun item => sameIdentity item.messageKey k) := by
          rw [List.countP_pos_iff]
          simpa using List.any_eq_true.mp hA
        omega
    · have h1 : addToRetryQueue q jid k t =
          qSet q jid (queue ++ [mkRetryItem jid k t]) := by
        rw [addToRetryQueue_present q jid k t queue hg, if_neg hA]
      have h2 : qGet (addToRetryQueue q jid k t) jid =
          some (queue ++ [mkRetryItem jid k t]) := by
        rw [h1]; exact qGet_qSet_self _ _ _
      have hzero : queue.countP (fun item => sameIdentity item.messageKey k) = 0 := by
        rw [List.countP_eq_zero]
        intro a ha
        have := (List.any_eq_false.mp (Bool.of_not_eq_true hA)) a ha
        simpa using this
      constructor
      · rw [addToRetryQueue_present _ jid k t1 _ h2]
        simp [mkRetryItem, sameIdentity_self]
      · rw [h2]
        simp [List.countP_append, hzero, mkRetryItem, sameIdentity_self]

/-- Witness for C4: a double enqueue of one message on the empty queue
equals the single enqueue, which holds exactly one matching item. -/
theorem c4_enqueue_idempotent_witness :
    addToRetryQueue
        (addToRetryQueue [] "5511999999999@s.whatsapp.net" ⟨"MSG1", false⟩ 0)
        "5511999999999@s.whatsapp.net" ⟨"MSG1", false⟩ 7 =
      addToRetryQueue [] "5511999999999@s.whatsapp.net" ⟨"MSG1", false⟩ 0 ∧
    ((qGet (addToRetryQueue [] "5511999999999@s.whatsapp.net" ⟨"MSG1", false⟩ 0)
        "5511999999999@s.whatsapp.net").getD []).countP
      (fun item => sameIdentity item.messageKey ⟨"MSG1", false⟩) = 1 :=
  c4_enqueue_idempotent [] "5511999999999@s.whatsapp.net" ⟨"MSG1", false⟩ 0 7
    (by decide)

/-- C5: for every queue state and current time, the expiry sweep keeps
exactly the items whose age is at most 10000 ms and removes exactly
those strictly older, the survivors keep their original relative order,
and the swept list stays in the map exactly when it is non-empty. -/
theorem c5_sweep_expired (now : Nat) (q : RetryQueue) (jid : String)
    (l : List RetryItem) (h : (jid, l) ∈ q) :
    (∀ item : RetryItem,
      item ∈ l.filter (keepMessage now) ↔
        item ∈ l ∧ now - item.timestamp ≤ MAX_WAIT_TIME) ∧
    (l.filter (keepMessage now)).Sublist l ∧
    ((jid, l.filter (keepMessage now)) ∈ cleanupExpiredMessages now q ↔
      l.filter (keepMessage now) ≠ []) := by
  refine ⟨?_, List.filter_sublist l, ?_⟩
  · intro item
    simp [List.mem_filter, keepMessage, Nat.not_lt]
  · constructor
    · intro hmem
      have := (List.mem_filter.mp hmem).2
      simpa [List.isEmpty_iff] using this
    · intro hne
      refine List.mem_filter.mpr ⟨?_, ?_⟩
      · exact List.mem_map.mpr ⟨(jid, l), h, rfl⟩
      · simpa [List.isEmpty_iff] using hne

/-- Witness for C5: sweeping at time 20000 a queue with one item of age
15000 and one of age 5000 keeps exactly the younger one, in order. -/
theorem c5_sweep_expired_witness :
    (([⟨⟨"OLD", false⟩, "j@s.whatsapp.net", 5000, 0, none⟩,
       ⟨⟨"NEW", false⟩, "j@s.whatsapp.net", 15000, 0, none⟩] :
        List RetryItem).filter (keepMessage 20000)).Sublist
      [⟨⟨"OLD", false⟩, "j@s.whatsapp.net", 5000, 0, none⟩,
       ⟨⟨"NEW", false⟩, "j@s.whatsapp.net", 15000, 0, none⟩] :=
  (c5_sweep_expired 20000
    [("j@s.whatsapp.net",
      [⟨⟨"OLD", false⟩, "j@s.whatsapp.net", 5000, 0, none⟩,
       ⟨⟨"NEW", false⟩, "j@s.whatsapp.net", 15000, 0, none⟩])]
    "j@s.whatsapp.net"
    [⟨⟨"OLD", false⟩, "j@s.whatsapp.net", 5000, 0, none⟩,
     ⟨⟨"NEW", false⟩, "j@s.whatsapp.net", 15000, 0, none⟩]
    (by decide)).2.1

/-- Equation of drainAttempts on a non-empty time list. -/
theorem drainAttempts_cons (t : Nat) (ts : List Nat) (item : RetryItem) :
    drainAttempts (t :: ts) item =
      match drainStepA t item with
      | (none, _) => 0
      | (some item1, attempted) =>
        (if attempted then 1 else 0) + drainAttempts ts item1 := rfl

/-- The drain step drops an item whose retry budget is spent. -/
theorem drainStepA_drop (now : Nat) (item : RetryItem)
    (h3 : 3 ≤ item.retries) : drainStepA now item = (none, false) := by
  simp [drainStepA, h3]

/-- The drain step skips an item retried less than a second ago. -/
theorem drainStepA_skip (now : Nat) (item : RetryItem)
    (h3 : ¬3 ≤ item.retries) (hr : recentRetry now item = true) :
    drainStepA now item = (some item, false) := by
  simp [drainStepA, h3, hr]

/-- The drain step attempts an in-budget, not recently retried item,
incrementing its counter and stamping its last-retry time. -/
theorem drainStepA_attempt (now : Nat) (item : RetryItem)
    (h3 : ¬3 ≤ item.retries) (hr : recentRetry now item = false) :
    drainStepA now item =
      (some { item with retries := item.retries + 1, lastRetry := some now },
        true) := by
  simp [drainStepA, h3, hr]

/-- Across any sequence of drain invocations the number of reprocessing
attempts on one item never exceeds what is left of its budget of 3. -/
theorem drainAttempts_le (ts : List Nat) (item : RetryItem) :
    drainAttempts ts item ≤ 3 - item.retries := by
  induction ts generalizing item with
  | nil => simp [drainAttempts]
  | cons t ts ih =>
    by_cases h3 : 3 ≤ item.retries
    · rw [drainAttempts_cons, drainStepA_drop t item h3]
      exact Nat.zero_le _
    · by_cases hr : recentRetry t item
      · rw [drainAttempts_cons, drainStepA_skip t item h3 hr]
        show 0 + drainAttempts ts item ≤ 3 - item.retries
        simpa using ih item
      · rw [drainAttempts_cons,
          drainStepA_attempt t item h3 (Bool.of_not_eq_true hr)]
        show 1 + drainAttempts ts
            { item with retries := item.retries + 1, lastRetry := some t } ≤
          3 - item.retries
        have hrec : drainAttempts ts
            { item with retries := item.retries + 1, lastRetry := some t } ≤
              3 - (item.retries + 1) := ih _
        omega

/-- C6: drain never attempts a given item more than 3 times: an item
whose retry count has reached 3 is dropped without an attempt, an item
retried less than 1000 ms ago is kept untouched with no attempt, and
otherwise the retry count is incremented and the last-retry time
stamped before the attempt; hence over any sequence of drains a fresh
item is attempted at most 3 times. -/
theorem c6_drain_retry_budget (ts : List Nat) (now : Nat)
    (item : RetryItem) :
    drainAttempts ts item ≤ 3 ∧
    drainAttempts ts item ≤ 3 - item.retries ∧
    (3 ≤ item.retries → drainStepA now item = (none, false)) ∧
    (item.retries < 3 → recentRetry now item = true →
      drainStepA now item = (some item, false)) ∧
    (item.retries < 3 → recentRetry now item = false →
      drainStepA now item =
        (some { item with retries := item.retries + 1, lastRetry := some now },
          true)) := by
  refine ⟨le_trans (drainAttempts_le ts item) (by omega),
    drainAttempts_le ts item, ?_, ?_, ?_⟩
  · intro h3
    simp [drainStepA, h3]
  · intro h3 hr
    simp [drainStepA, Nat.not_le.mpr h3, hr]
  · intro h3 hr
    simp [drainStepA, Nat.not_le.mpr h3, hr]

/-- Witness for C6: a fresh item drained at times 0, 2000, 4000, 6000 and
8000 is attempted at most three times. -/
theorem c6_drain_retry_budget_witness :
    drainAttempts [0, 2000, 4000, 6000, 8000]
      ⟨⟨"MSG1", false⟩, "j@s.whatsapp.net", 0, 0, none⟩ ≤ 3 :=
  (c6_drain_retry_budget [0, 2000, 4000, 6000, 8000] 0
    ⟨⟨"MSG1", false⟩, "j@s.whatsapp.net", 0, 0, none⟩).1

/-- A set with a non-empty value preserves queue well-formedness. -/
theorem wfQueue_qSet (q : RetryQueue) (jid : String) (l : List RetryItem)
    (hq : wfQueue q) (hl : l ≠ []) : wfQueue (qSet q jid l) := by
  intro p hp
  rcases mem_qSet q jid l p hp with h | h
  · subst h; simpa using hl
  · exact hq p h

/-- A delete preserves queue well-formedness. -/
theorem wfQueue_qDelete (q : RetryQueue) (jid : String) (hq : wfQueue q) :
    wfQueue (qDelete q jid) :=
  fun p hp => hq p (mem_qDelete q jid p hp)

/-- C7: no operation of the retry queue retains a counterparty key that
maps to an empty list: enqueue, remove, the expiry sweep and the drain
all preserve the invariant that every stored list is non-empty. -/
theorem c7_no_empty_list_retained (q : RetryQueue) (jid : String)
    (k : MessageKey) (t now : Nat) (h : wfQueue q) :
    wfQueue (addToRetryQueue q jid k t) ∧
    wfQueue (removeFromRetryQueue q jid k) ∧
    wfQueue (cleanupExpiredMessages now q) ∧
    wfQueue (retryQueuedMessages now q jid) := by
  refine ⟨?_, ?_, ?_, ?_⟩
  · rcases hg : qGet q jid with _ | queue
    · rw [addToRetryQueue_absent q jid k t hg]
      exact wfQueue_qSet q jid _ h (by simp [mkRetryItem])
    · rw [addToRetryQueue_present q jid k t queue hg]
      by_cases hA : queue.any (fun item => sameIdentity item.messageKey k)
      · simpa [hA] using h
      · simp only [if_neg hA]
        exact wfQueue_qSet q jid _ h (by simp)
  · rcases hg : qGet q jid with _ | queue
    · unfold removeFromRetryQueue
      rw [hg]
      exact h
    · have h1 : removeFromRetryQueue q jid k =
          if (spliceMatching queue k).length = 0 then qDelete q jid
          else qSet q jid (spliceMatching queue k) := by
        unfold removeFromRetryQueue
        rw [hg]
      rw [h1]
      split
      · exact wfQueue_qDelete q jid h
      · rename_i hlen
        refine wfQueue_qSet q jid _ h ?_
        intro hcon
        exact hlen (by simp [hcon])
  · intro p hp
    have := (List.mem_filter.mp hp).2
    simpa [List.isEmpty_iff] using this
  · rcases hg : qGet q jid with _ | queue
    · unfold retryQueuedMessages
      rw [hg]
      exact h
    · have h1 : retryQueuedMessages now q jid =
          if queue.isEmpty then q
          else if (queue.filterMap (drainStep now)).length = 0 then qDelete q jid
          else qSet q jid (queue.filterMap (drainStep now)) := by
        unfold retryQueuedMessages
        rw [hg]
      rw [h1]
      split
      · exact h
      · split
        · exact wfQueue_qDelete q jid h
        · rename_i hlen
          refine wfQueue_qSet q jid _ h ?_
          intro hcon
          exact hlen (by simp [hcon])

/-- Witness for C7: from a well-formed one-entry queue every operation
yields a well-formed queue. -/
theorem c7_no_empty_list_retained_witness :
    wfQueue (addToRetryQueue
      [("j@s.whatsapp.net", [⟨⟨"MSG1", false⟩, "j@s.whatsapp.net", 0, 0, none⟩])]
      "j@s.whatsapp.net" ⟨"MSG1", false⟩ 1) ∧
    wfQueue (removeFromRetryQueue
      [("j@s.whatsapp.net", [⟨⟨"MSG1", false⟩, "j@s.whatsapp.net", 0, 0, none⟩])]
      "j@s.whatsapp.net" ⟨"MSG1", false⟩) ∧
    wfQueue (cleanupExpiredMessages 5
      [("j@s.whatsapp.net", [⟨⟨"MSG1", false⟩, "j@s.whatsapp.net", 0, 0, none⟩])]) ∧
    wfQueue (retryQueuedMessages 5
      [("j@s.whatsapp.net", [⟨⟨"MSG1", false⟩, "j@s.whatsapp.net", 0, 0, none⟩])]
      "j@s.whatsapp.net") :=
  c7_no_empty_list_retained
    [("j@s.whatsapp.net", [⟨⟨"MSG1", false⟩, "j@s.whatsapp.net", 0, 0, none⟩])]
    "j@s.whatsapp.net" ⟨"MSG1", false⟩ 1 5
    (by intro p hp; simp at hp; simp [hp])

/-! ## Outbound send -/

/-- C8 counterexample: with a healthy connection and a valid number, a
single transport failure with a timeout-like status (408) surfaces to
the caller after exactly one attempt: no second or third attempt and no
backoff delay exists in the send path. -/
theorem c8_counterexample :
    (sendMessage { sockPresent := true, isReady := true } "5511999999999"
      (Except.error 408)).attempts = 1 ∧
    (sendMessage { sockPresent := true, isReady := true } "5511999999999"
      (Except.error 408)).result = Except.error (SendError.transport 408) := by
  constructor <;> rfl

/-- C8 amended: the outbound send performs at most one transport attempt
per call, exactly one when the connection is ready and the number is
valid, and any failure of that single attempt, transient or not,
surfaces immediately to the caller as a transport error. -/
theorem c8_send_single_attempt (st : SendState) (numero : String)
    (tr : Except Nat Unit) :
    (sendMessage st numero tr).attempts ≤ 1 ∧
    ((st.sockPresent && st.isReady) = true → sanitizeNumber numero ≠ "" →
      (sendMessage st numero tr).attempts = 1) ∧
    (∀ c : Nat, tr = Except.error c → (st.sockPresent && st.isReady) = true →
      sanitizeNumber numero ≠ "" →
      (sendMessage st numero tr).result = Except.error (SendError.transport c)) := by
  refine ⟨?_, ?_, ?_⟩
  · unfold sendMessage
    rcases st with ⟨sock, ready⟩
    cases sock <;> cases ready <;> simp
    all_goals
      unfold buildJidFromNumber
      split
      · simp
      · rcases tr with _ | _ <;> simp
  · intro hok hnum
    rcases st with ⟨sock, ready⟩
    simp only [Bool.and_eq_true] at hok
    unfold sendMessage
    rw [hok.1, hok.2]
    simp only [Bool.not_true, Bool.or_self, Bool.false_eq_true, if_false]
    unfold buildJidFromNumber
    rw [if_neg hnum]
    rcases tr with _ | _ <;> rfl
  · intro c hc hok hnum
    subst hc
    rcases st with ⟨sock, ready⟩
    simp only [Bool.and_eq_true] at hok
    unfold sendMessage
    rw [hok.1, hok.2]
    simp only [Bool.not_true, Bool.or_self, Bool.false_eq_true, if_false]
    unfold buildJidFromNumber
    rw [if_neg hnum]

/-- Witness for C8 amended: a successful send from a ready connection
makes exactly one transport attempt. -/
theorem c8_send_single_attempt_witness :
    (sendMessage { sockPresent := true, isReady := true } "5511999999999"
      (Except.ok ())).attempts = 1 :=
  (c8_send_single_attempt { sockPresent := true, isReady := true }
    "5511999999999" (Except.ok ())).2.1 rfl (by decide)

/-- C9: the send preconditions are checked before any transport attempt:
a connection that is absent or not ready fails fast with the
not-ready error, a number without a single digit fails fast with the
invalid-number error, and in both cases zero transport attempts are
made; a number sanitizes to the empty string exactly when it contains
no digit. -/
theorem c9_send_preconditions (st : SendState) (numero : String)
    (tr : Except Nat Unit) :
    ((st.sockPresent && st.isReady) = false →
      sendMessage st numero tr =
        { attempts := 0, result := Except.error SendError.notReady }) ∧
    ((st.sockPresent && st.isReady) = true → sanitizeNumber numero = "" →
      sendMessage st numero tr =
        { attempts := 0, result := Except.error SendError.invalidNumber }) ∧
    (sanitizeNumber numero = "" ↔ ∀ ch ∈ numero.data, ch.isDigit = false) := by
  refine ⟨?_, ?_, ?_⟩
  · intro hbad
    rcases st with ⟨sock, ready⟩
    unfold sendMessage
    cases sock <;> cases ready <;> simp_all
  · intro hok hnum
    rcases st with ⟨sock, ready⟩
    simp only [Bool.and_eq_true] at hok
    unfold sendMessage
    rw [hok.1, hok.2]
    simp only [Bool.not_true, Bool.or_self, Bool.false_eq_true, if_false]
    unfold buildJidFromNumber
    rw [if_pos hnum]
  · unfold sanitizeNumber
    constructor
    · intro hmk ch hch
      have hdata : numero.data.filter Char.isDigit = [] := by
        have := congrArg String.data hmk
        simpa using this
      have := List.filter_eq_nil_iff.mp hdata ch hch
      simpa using this
    · intro hall
      have hdata : numero.data.filter Char.isDigit = [] :=
        List.filter_eq_nil_iff.mpr (fun ch hch => by simp [hall ch hch])
      rw [hdata]

/-- Witness for C9: a send without a ready connection fails fast with
the not-ready error and zero attempts, and a send of a digit-free
number on a ready connection fails fast with the invalid-number error
and zero attempts. -/
theorem c9_send_preconditions_witness :
    sendMessage { sockPresent := false, isReady := false } "5511999999999"
      (Except.ok ()) =
      { attempts := 0, result := Except.error SendError.notReady } ∧
    sendMessage { sockPresent := true, isReady := true } "abc"
      (Except.ok ()) =
      { attempts := 0, result := Except.error SendError.invalidNumber } :=
  ⟨(c9_send_preconditions { sockPresent := false, isReady := false }
      "5511999999999" (Except.ok ())).1 rfl,
   (c9_send_preconditions { sockPresent := true, isReady := true }
      "abc" (Except.ok ())).2.1 rfl (by decide)⟩

/-! ## Rejected-messages debug log -/

/-- One insertion keeps the log within the cap. -/
theorem trackRejected_length_le (log : List RejectedEntry) (e : RejectedEntry)
    (h : log.length ≤ MAX_REJECTED_TRACK) :
    (trackRejected log e).length ≤ MAX_REJECTED_TRACK := by
  unfold trackRejected
  dsimp only
  split
  · rename_i hgt
    simp only [List.length_dropLast, List.length_cons]
    omega
  · rename_i hle
    simp only [List.length_cons]
    simp only [List.length_cons, Nat.not_lt] at hle
    omega

/-- Any sequence of insertions starting inside the cap stays inside it. -/
theorem foldl_trackRejected_le (es : List RejectedEntry)
    (log : List RejectedEntry) (h : log.length ≤ MAX_REJECTED_TRACK) :
    ((es.foldl trackRejected log)).length ≤ MAX_REJECTED_TRACK := by
  induction es generalizing log with
  | nil => simpa using h
  | cons e es ih => exact ih _ (trackRejected_length_le log e h)

/-- C10: the rejected-messages debug log is bounded: an insertion puts
the new entry at the front and, when the length exceeds 100, evicts the
last (oldest) entry, so from any state within the cap of 100 the log
stays within the cap, any sequence of insertions from the empty log
stays within it, and the debug endpoint returns at most the 50 most
recent entries. -/
theorem c10_rejected_log_bounded (log : List RejectedEntry)
    (e : RejectedEntry) (es : List RejectedEntry)
    (h : log.length ≤ MAX_REJECTED_TRACK) :
    (trackRejected log e).length ≤ MAX_REJECTED_TRACK ∧
    (trackRejected log e).head? = some e ∧
    (log.length = MAX_REJECTED_TRACK →
      trackRejected log e = (e :: log).dropLast) ∧
    (debugRejectedMessages log).length ≤ 50 ∧
    debugRejectedMessages log = log.take 50 ∧
    (es.foldl trackRejected []).length ≤ MAX_REJECTED_TRACK := by
  refine ⟨trackRejected_length_le log e h, ?_, ?_, ?_, rfl,
    foldl_trackRejected_le es [] (by simp [MAX_REJECTED_TRACK])⟩
  · unfold trackRejected
    dsimp only
    split
    · rename_i hgt
      rcases log with _ | ⟨a, log⟩
      · simp [MAX_REJECTED_TRACK] at hgt
      · rw [List.dropLast_cons₂]
        rfl
    · rfl
  · intro hfull
    unfold trackRejected
    dsimp only
    rw [if_pos (by simp [hfull])]
  · simp only [debugRejectedMessages]
    simp

/-- Witness for C10: inserting one entry into the empty log keeps it
within the cap with the entry at the front. -/
theorem c10_rejected_log_bounded_witness :
    (trackRejected [] ⟨0, "j@s.whatsapp.net", "sem texto"⟩).length ≤
      MAX_REJECTED_TRACK ∧
    (trackRejected [] ⟨0, "j@s.whatsapp.net", "sem texto"⟩).head? =
      some ⟨0, "j@s.whatsapp.net", "sem texto"⟩ :=
  ⟨(c10_rejected_log_bounded [] ⟨0, "j@s.whatsapp.net", "sem texto"⟩ []
      (by decide)).1,
   (c10_rejected_log_bounded [] ⟨0, "j@s.whatsapp.net", "sem texto"⟩ []
      (by decide)).2.1⟩

end WhatsappGateway
